import Mathlib

/-
  Shallow embedding of the LPSolver repository (src/core and src/utils).
  Machine floats are modelled by exact rationals; numpy out-of-bounds
  indexing and Python IndexError are modelled by Except String.
-/

namespace LPSolver

/-- Equality of Except values is decidable componentwise. -/
instance {ε α : Type} [DecidableEq ε] [DecidableEq α] :
    DecidableEq (Except ε α) := fun a b =>
  match a, b with
  | Except.error e, Except.error e' =>
    if h : e = e' then Decidable.isTrue (by rw [h])
    else Decidable.isFalse (by intro hc; cases hc; exact h rfl)
  | Except.ok v, Except.ok v' =>
    if h : v = v' then Decidable.isTrue (by rw [h])
    else Decidable.isFalse (by intro hc; cases hc; exact h rfl)
  | Except.error _, Except.ok _ => Decidable.isFalse (by intro hc; cases hc)
  | Except.ok _, Except.error _ => Decidable.isFalse (by intro hc; cases hc)

/-- Python str.strip() (with no argument): remove whitespace from both ends
of the string.  Implemented structurally over the character list so that
evaluation reduces in the kernel. -/
def pyStrip (s : String) : String :=
  { data := ((s.data.dropWhile Char.isWhitespace).reverse.dropWhile
      Char.isWhitespace).reverse }

/-- Embedding of utils.constants.OptimizationType. -/
inductive OptimizationType where
  | MAXIMIZE
  | MINIMIZE
deriving DecidableEq, Repr

/-- Embedding of utils.constants.SolutionStatus (members used by the core). -/
inductive SolutionStatus where
  | OPTIMAL
  | INFEASIBLE
  | UNBOUNDED
  | ERROR
deriving DecidableEq, Repr

/-- Embedding of utils.containers.ConstraintData. -/
structure ConstraintData where
  coefficients : List ℚ
  operator : String
  free_val : ℚ
deriving DecidableEq, Repr

/-- Embedding of utils.containers.LPProblem. -/
structure LPProblem where
  optimization_type : OptimizationType
  objective_coefficients : List ℚ
  constraints : List ConstraintData
  variables_count : Nat
deriving DecidableEq, Repr

/-- LPProblem.get_A_matrix. -/
def LPProblem.get_A_matrix (p : LPProblem) : List (List ℚ) :=
  p.constraints.map (fun c => c.coefficients)

/-- LPProblem.get_b_vector. -/
def LPProblem.get_b_vector (p : LPProblem) : List ℚ :=
  p.constraints.map (fun c => c.free_val)

/-- Embedding of utils.containers.BFSolution. -/
structure BFSolution where
  basis_indices : List Nat
  basic_values : List ℚ
  full_solution : Option (List ℚ) := none
deriving DecidableEq, Repr

/-- BFSolution.is_feasible: all basic values are non-negative. -/
def BFSolution.is_feasible (s : BFSolution) : Bool :=
  s.basic_values.all (fun v => 0 ≤ v)

/-- A cell of the displayed simplex table: Python rows mix strings and floats. -/
inductive Cell where
  | str (s : String)
  | num (q : ℚ)
deriving DecidableEq, Repr

/-- One entry of the iteration history: the dict with keys headers and data. -/
structure Snapshot where
  headers : List String
  data : List (List Cell)
deriving DecidableEq, Repr

/-- Embedding of the mutable state of utils.interfaces.ITable /
core.simplex_table.SimplexTable. -/
structure Table where
  problem : LPProblem
  A : List (List ℚ)
  b : List ℚ
  c : List ℚ
  basis : List Nat
  headers : List String
  tableRows : List (List Cell)
  iterations : List Snapshot
deriving DecidableEq, Repr

/-- Embedding of utils.containers.LPResult. -/
structure LPResult where
  status : SolutionStatus
  optimal_value : Option ℚ := none
  solution : Option (List ℚ) := none
  table : Option Table := none
  error_message : Option String := none
deriving DecidableEq, Repr

/-- EPSILON = 1e-10 in core/simplex_table.py. -/
def EPSILON : ℚ := 1 / 10000000000

/-- Dot product; numpy @ of two equal-length vectors (zip truncates, but the
flows reaching it use equal lengths). -/
def dot (xs ys : List ℚ) : ℚ :=
  ((xs.zip ys).map (fun p => p.1 * p.2)).sum

/-- Column j of a matrix, numpy A[:, j]. -/
def matCol (A : List (List ℚ)) (j : Nat) : List ℚ :=
  A.map (fun row => row.getD j 0)

/-- numpy scalar read c[bi]: raises IndexError when bi is out of bounds. -/
def cGet (c : List ℚ) (bi : Nat) : Except String ℚ :=
  match c.get? bi with
  | some v => Except.ok v
  | none => Except.error "index out of bounds"

/-- Reduced costs delta = c - cB @ A (SimplexTable._compute_delta), as a
function of the raw data.  Reads c[bi] with a default; the table-building
step has already rejected out-of-bounds basis indices. -/
def deltaOf (c : List ℚ) (A : List (List ℚ)) (basis : List Nat) : List ℚ :=
  let cB := basis.map (fun bi => c.getD bi 0)
  (List.range c.length).map (fun j => c.getD j 0 - dot cB (matCol A j))

/-- Objective value cB @ b (SimplexTable.get_objective_value) on raw data. -/
def objectiveOf (c : List ℚ) (b : List ℚ) (basis : List Nat) : ℚ :=
  dot (basis.map (fun bi => c.getD bi 0)) b

/-- The basis rows of SimplexTable._build_table: for each basis index bi the
row [f"A{bi+1}", c[bi], b[i]] ++ A[i] ++ ["-"].  The read c[bi] raises when
bi is out of bounds, exactly where numpy raises in the source. -/
def basisRows (c : List ℚ) (A : List (List ℚ)) (b : List ℚ) :
    List Nat → Nat → Except String (List (List Cell))
  | [], _ => Except.ok []
  | bi :: rest, i =>
    match cGet c bi with
    | Except.error e => Except.error e
    | Except.ok cb =>
      let Ai := A.getD i []
      let Bi := b.getD i 0
      let row := [Cell.str ("A" ++ toString (bi + 1)), Cell.num cb, Cell.num Bi]
        ++ Ai.map Cell.num ++ [Cell.str "-"]
      match basisRows c A b rest (i + 1) with
      | Except.error e => Except.error e
      | Except.ok others => Except.ok (row :: others)

/-- SimplexTable._build_table: basis rows followed by the delta footer row. -/
def buildTableRows (c : List ℚ) (A : List (List ℚ)) (b : List ℚ)
    (basis : List Nat) : Except String (List (List Cell)) :=
  match basisRows c A b basis 0 with
  | Except.error e => Except.error e
  | Except.ok rows =>
    let delta := deltaOf c A basis
    let z0 := objectiveOf c b basis
    let footer := [Cell.str "Δj = cj - zj", Cell.str "-", Cell.num z0]
      ++ delta.map Cell.num ++ [Cell.str "-"]
    Except.ok (rows ++ [footer])

/-- SimplexTable._build_headers. -/
def buildHeaders (p : LPProblem) : List String :=
  ["X_basis", "ci", "B"]
    ++ (List.range p.variables_count).map (fun i => "A" ++ toString (i + 1))
    ++ ["Q"]

/-- ITable.__init__: builds A, b, c, basis from the problem and BFS, the
headers, the initial table rows, and the one-element iteration history.
Raises (Except.error) when building the rows reads c out of bounds. -/
def initTable (p : LPProblem) (bfs : BFSolution) : Except String Table :=
  let A := p.get_A_matrix
  let b := p.get_b_vector
  let c := p.objective_coefficients
  let basis := bfs.basis_indices
  let headers := buildHeaders p
  match buildTableRows c A b basis with
  | Except.error e => Except.error e
  | Except.ok rows =>
    Except.ok
    { problem := p,
      A := A,
      b := b,
      c := c,
      basis := basis,
      headers := headers,
      tableRows := rows,
      iterations := [{ headers := headers, data := rows }] }

/-- SimplexTable._compute_delta on a table. -/
def computeDelta (t : Table) : List ℚ :=
  deltaOf t.c t.A t.basis

/-- SimplexTable.is_optimal: all delta_j <= EPSILON. -/
def is_optimal (t : Table) : Bool :=
  (computeDelta t).all (fun d => d ≤ EPSILON)

/-- SimplexTable.get_entering_variable.  The source computes
np.argmax(delta > EPSILON) over the boolean mask, which is the index of the
first True entry, i.e. the first column with delta above EPSILON; None when
no entry is positive. -/
def get_entering_variable (t : Table) : Option Nat :=
  (computeDelta t).findIdx? (fun d => EPSILON < d)

/-- Strict order on ratios where none stands for np.inf. -/
def ltOptQ : Option ℚ → Option ℚ → Bool
  | some a, some b => a < b
  | some _, none => true
  | none, _ => false

/-- np.argmin over a list of ratios (none = np.inf): index of the first
minimal entry; 0 for the empty list, as numpy's argmin of nothing is
never reached in the source flows. -/
def argminAux : List (Option ℚ) → Nat → Nat → Option ℚ → Nat
  | [], _, bestIdx, _ => bestIdx
  | x :: xs, i, bestIdx, best =>
    if ltOptQ x best then argminAux xs (i + 1) i x
    else argminAux xs (i + 1) bestIdx best

/-- np.argmin on Option-valued ratios. -/
def npArgmin : List (Option ℚ) → Nat
  | [] => 0
  | x :: xs => argminAux xs 1 0 x

/-- SimplexTable.get_leaving_variable: min-ratio test.  Ratios are b_i /
column_i where the column entry exceeds EPSILON, np.inf (none) elsewhere;
returns the argmin row unless its ratio is infinite, None when the column
has no positive entry. -/
def get_leaving_variable (t : Table) (entering_col : Nat) : Option Nat :=
  let column := matCol t.A entering_col
  if column.any (fun x => EPSILON < x) then
    let ratios := (t.b.zip column).map
      (fun p => if EPSILON < p.2 then some (p.1 / p.2) else none)
    let leaving_row := npArgmin ratios
    if (ratios.getD leaving_row none).isSome then some leaving_row else none
  else none

/-- SimplexTable.get_objective_value. -/
def get_objective_value (t : Table) : ℚ :=
  objectiveOf t.c t.b t.basis

/-- SimplexTable.get_solution_vector: zeros of length variables_count with
b_i written at basic index var_index when var_index < n. -/
def get_solution_vector (t : Table) : List ℚ :=
  let n := t.problem.variables_count
  (t.basis.zip t.b).foldl
    (fun acc p => if p.1 < n then acc.set p.1 p.2 else acc)
    (List.replicate n 0)

/-- SimplexTable.pivot.  Raises when the pivot element is below EPSILON in
absolute value; otherwise applies the 2x2-determinant update
new[i,j] = (A[i,j]*p - A[i,ec]*A[lr,j]) / p to EVERY row (the source does
not special-case the pivot row), updates b and the basis, rebuilds the
display rows and appends one snapshot to the history (save_iteration). -/
def pivot (t : Table) (leaving_row entering_col : Nat) :
    Except String Table :=
  let p := (t.A.getD leaving_row []).getD entering_col 0
  if |p| < EPSILON then
    Except.error ("Pivot element too close to zero: " ++ toString p)
  else
    let pivotRow := t.A.getD leaving_row []
    let pivotB := t.b.getD leaving_row 0
    let colVec := matCol t.A entering_col
    let A' := List.zipWith
      (fun Ai ci => List.zipWith (fun a prj => (a * p - ci * prj) / p) Ai pivotRow)
      t.A colVec
    let b' := List.zipWith (fun bi ci => (bi * p - ci * pivotB) / p) t.b colVec
    let basis' := t.basis.set leaving_row entering_col
    match buildTableRows t.c A' b' basis' with
    | Except.error e => Except.error e
    | Except.ok rows =>
      Except.ok
      { t with
        A := A',
        b := b',
        basis := basis',
        tableRows := rows,
        iterations := t.iterations ++ [{ headers := t.headers, data := rows }] }

/-- ITable.get_full_history: the iteration history, oldest first. -/
def get_full_history (t : Table) : List Snapshot :=
  t.iterations

/-- SimplexAlgorithm._create_optimal_result. -/
def optimalResult (t : Table) : LPResult :=
  { status := SolutionStatus.OPTIMAL,
    optimal_value := some (get_objective_value t),
    solution := some (get_solution_vector t),
    table := some t }

/-- SimplexAlgorithm._create_unbounded_result. -/
def unboundedResult (t : Table) : LPResult :=
  { status := SolutionStatus.UNBOUNDED,
    error_message := some "Problem is unbounded",
    table := some t }

/-- SimplexAlgorithm._create_error_result (table = self.table). -/
def errorResultT (msg : String) (tab : Option Table) : LPResult :=
  { status := SolutionStatus.ERROR, error_message := some msg, table := tab }

/-- The while loop of SimplexAlgorithm.solve_from_bfs with the iteration
counter k, returning the result together with the final counter (= number
of pivots performed when started at 0).  A ValueError from pivot is caught
by the surrounding except and reported with the current table. -/
def simplexLoop (maxIter k : Nat) (t : Table) : LPResult × Nat :=
  if is_optimal t then (optimalResult t, k)
  else if maxIter ≤ k then
    (errorResultT "Max iterations exceeded" (some t), k)
  else
    match get_entering_variable t with
    | none => (optimalResult t, k)
    | some ec =>
      match get_leaving_variable t ec with
      | none => (unboundedResult t, k)
      | some lr =>
        match pivot t lr ec with
        | Except.error e =>
          (errorResultT ("Algorithm error: " ++ e) (some t), k)
        | Except.ok t' => simplexLoop maxIter (k + 1) t'
termination_by maxIter - k
decreasing_by simp_wf; omega

/-- SimplexAlgorithm.solve_from_bfs: builds the table (an exception here is
caught and reported as "Algorithm error: ..." with self.table still None)
and runs the loop. -/
def solve_from_bfs (maxIter : Nat) (sf : LPProblem) (bfs : BFSolution) :
    LPResult :=
  match initTable sf bfs with
  | Except.error e => errorResultT ("Algorithm error: " ++ e) none
  | Except.ok t => (simplexLoop maxIter 0 t).1

/-- The count of constraints whose (untrimmed) operator is literally <= or
>=, i.e. slack_needed in LPSolver._build_standard_form. -/
def slack_needed_count (cs : List ConstraintData) : Nat :=
  (cs.filter (fun c => c.operator = "<=" ∨ c.operator = ">=")).length

/-- One step of the constraint loop of LPSolver._build_standard_form: trim
the operator, normalise a negative free value (negating and flipping),
then place the slack coefficient.  slack_vars[slack_count] raises
IndexError when slack_count is not below slack_needed. -/
def stdOne (slackNeeded slackCount : Nat) (c : ConstraintData) :
    Except String (ConstraintData × Nat) :=
  let op0 := pyStrip c.operator
  let fv := if c.free_val < 0 then -c.free_val else c.free_val
  let coefs := if c.free_val < 0 then c.coefficients.map (fun a => -a)
    else c.coefficients
  let op := if c.free_val < 0 then
      (if op0 = ">=" then "<=" else if op0 = "<=" then ">=" else op0)
    else op0
  if op = "<=" ∨ op = ">=" then
    if slackCount < slackNeeded then
      Except.ok
        ({ coefficients := coefs ++
            (List.replicate slackNeeded (0 : ℚ)).set slackCount
              (if op = "<=" then 1 else -1),
           operator := "=", free_val := fv }, slackCount + 1)
    else Except.error "list assignment index out of range"
  else
    Except.ok
      ({ coefficients := coefs ++ List.replicate slackNeeded 0,
         operator := "=", free_val := fv }, slackCount)

/-- The constraint loop of LPSolver._build_standard_form threading
slack_count. -/
def stdFold (slackNeeded : Nat) :
    Nat → List ConstraintData → Except String (List ConstraintData)
  | _, [] => Except.ok []
  | sc, c :: rest =>
    match stdOne slackNeeded sc c with
    | Except.error e => Except.error e
    | Except.ok r =>
      match stdFold slackNeeded r.2 rest with
      | Except.error e => Except.error e
      | Except.ok rest' => Except.ok (r.1 :: rest')

/-- LPSolver._build_standard_form.  Negates the objective for MINIMIZE,
counts slack_needed over the UNtrimmed operators, rewrites each constraint
to an equality, and extends the objective with zeros for the slacks. -/
def build_standard_form (st : LPProblem) : Except String LPProblem :=
  let obj := if st.optimization_type = OptimizationType.MINIMIZE then
      st.objective_coefficients.map (fun a => -a)
    else st.objective_coefficients
  let slackNeeded := slack_needed_count st.constraints
  match stdFold slackNeeded 0 st.constraints with
  | Except.error e => Except.error e
  | Except.ok cs =>
    Except.ok
      { optimization_type := OptimizationType.MAXIMIZE,
        objective_coefficients := obj ++ List.replicate slackNeeded 0,
        constraints := cs,
        variables_count := obj.length + slackNeeded }

/-- BasicBFSFinder.find_initial_bfs: basis indices range(n, n+m) with
n = variables_count and m the number of constraints, basic values the free
values in order, full solution of length n+m with the basic values
scattered at the basis indices. -/
def find_initial_bfs (sf : LPProblem) : BFSolution :=
  let m := sf.constraints.length
  let n := sf.variables_count
  let basis_indices := List.range' n m
  let basic_values := sf.constraints.map (fun c => c.free_val)
  let full_solution := (basis_indices.zip basic_values).foldl
    (fun acc p => acc.set p.1 p.2) (List.replicate (n + m) 0)
  { basis_indices := basis_indices, basic_values := basic_values,
    full_solution := some full_solution }

/-- The body of LPSolver.solve inside its try: the Except.error case is
exactly an exception escaping to the except clause of solve. -/
def solveBody (maxIter : Nat) (st : LPProblem) : Except String LPResult :=
  if st.objective_coefficients = [] ∨ st.constraints = [] then
    Except.ok
      { status := SolutionStatus.ERROR,
        error_message := some "Empty objective function or constraints" }
  else
    match build_standard_form st with
    | Except.error e => Except.error e
    | Except.ok sf =>
      let bfs := find_initial_bfs sf
      if bfs.is_feasible then Except.ok (solve_from_bfs maxIter sf bfs)
      else
        Except.ok
          { status := SolutionStatus.INFEASIBLE,
            error_message := some "No initial BFS found" }

/-- LPSolver.solve: the try/except boundary wrapping escaped exceptions as
"Solver error: <message>". -/
def solve (maxIter : Nat) (st : LPProblem) : LPResult :=
  match solveBody maxIter st with
  | Except.ok r => r
  | Except.error e =>
    { status := SolutionStatus.ERROR,
      error_message := some ("Solver error: " ++ e) }

/-
  Concrete inputs used by the theorems below.
-/

/-- The LP of spec scenario 1: maximize 3x1+2x2 with x1+x2 <= 4 and
2x1+x2 <= 5. -/
def c2prob : LPProblem :=
  { optimization_type := OptimizationType.MAXIMIZE,
    objective_coefficients := [3, 2],
    constraints :=
      [ { coefficients := [1, 1], operator := "<=", free_val := 4 },
        { coefficients := [2, 1], operator := "<=", free_val := 5 } ],
    variables_count := 2 }

/-- The LP of spec scenario 2: maximize x1+x2 with -x1+x2 <= 1. -/
def c7prob : LPProblem :=
  { optimization_type := OptimizationType.MAXIMIZE,
    objective_coefficients := [1, 1],
    constraints :=
      [ { coefficients := [-1, 1], operator := "<=", free_val := 1 } ],
    variables_count := 2 }

/-- A one-constraint statement whose operator string carries surrounding
whitespace. -/
def c9prob : LPProblem :=
  { optimization_type := OptimizationType.MAXIMIZE,
    objective_coefficients := [1],
    constraints :=
      [ { coefficients := [1], operator := " <= ", free_val := 1 } ],
    variables_count := 1 }

/-- The same statement with the operator trimmed. -/
def c9probTrimmed : LPProblem :=
  { optimization_type := OptimizationType.MAXIMIZE,
    objective_coefficients := [1],
    constraints :=
      [ { coefficients := [1], operator := "<=", free_val := 1 } ],
    variables_count := 1 }

/-- A standard-form problem whose reduced costs are [1, 5, 0]: the largest
positive reduced cost sits at column 1, not column 0. -/
def c3prob : LPProblem :=
  { optimization_type := OptimizationType.MAXIMIZE,
    objective_coefficients := [1, 5, 0],
    constraints :=
      [ { coefficients := [1, 1, 1], operator := "=", free_val := 4 } ],
    variables_count := 3 }

/-- A valid initial BFS for c3prob (slack column 2 in the basis). -/
def c3bfs : BFSolution :=
  { basis_indices := [2], basic_values := [4],
    full_solution := some [0, 0, 4] }

/-- The standard form of scenario 1, spelled out. -/
def c4prob : LPProblem :=
  { optimization_type := OptimizationType.MAXIMIZE,
    objective_coefficients := [3, 2, 0, 0],
    constraints :=
      [ { coefficients := [1, 1, 1, 0], operator := "=", free_val := 4 },
        { coefficients := [2, 1, 0, 1], operator := "=", free_val := 5 } ],
    variables_count := 4 }

/-- The slack basis for c4prob, as the repository's tests expect it. -/
def c4bfs : BFSolution :=
  { basis_indices := [2, 3], basic_values := [4, 5],
    full_solution := some [0, 0, 4, 5] }

/-- The standard-form problem of test_three_constraints in
tests/test_bfs_finder.py: 6 columns, 3 constraints. -/
def c1prob : LPProblem :=
  { optimization_type := OptimizationType.MAXIMIZE,
    objective_coefficients := [5, 4, 3, 0, 0, 0],
    constraints :=
      [ { coefficients := [2, 3, 1, 1, 0, 0], operator := "=", free_val := 10 },
        { coefficients := [4, 1, 2, 0, 1, 0], operator := "=", free_val := 15 },
        { coefficients := [3, 4, 2, 0, 0, 1], operator := "=", free_val := 20 } ],
    variables_count := 6 }

/-- A placeholder table used only as a getD default when extracting the
value of a successful Except. -/
def junkTable : Table :=
  { problem :=
      { optimization_type := OptimizationType.MAXIMIZE,
        objective_coefficients := [], constraints := [],
        variables_count := 0 },
    A := [], b := [], c := [], basis := [], headers := [], tableRows := [],
    iterations := [] }

/-- A placeholder problem used as a getD default. -/
def junkProb : LPProblem :=
  { optimization_type := OptimizationType.MAXIMIZE,
    objective_coefficients := [], constraints := [], variables_count := 0 }

/-- The table built from c3prob and c3bfs. -/
def wTable : Table := (initTable c3prob c3bfs).toOption.getD junkTable

/-- The table built from c4prob and c4bfs. -/
def c4table : Table := (initTable c4prob c4bfs).toOption.getD junkTable

/-- The table after the pivot at row 1, column 0 of c4table. -/
def c4tableP : Table := (pivot c4table 1 0).toOption.getD junkTable

/-- The standard form the builder produces for c2prob. -/
def c2std : LPProblem := (build_standard_form c2prob).toOption.getD junkProb

/-
  Theorems settling the claims.
-/

/-- C1: the claim says find_initial_bfs returns the last m column indices
(n-m .. n-1), each below variables_count, and a dense full_solution of
length n.  On the 6-column, 3-constraint problem of the repository's own
test_three_constraints the code instead returns basis indices [6, 7, 8]
(range(n, n+m)), every one of them outside [0, variables_count), and a
full_solution of length n+m = 9; the test expects [3, 4, 5] and length 6. -/
theorem c1_bfs_basis_out_of_range :
    find_initial_bfs c1prob =
      { basis_indices := [6, 7, 8], basic_values := [10, 15, 20],
        full_solution := some [0, 0, 0, 0, 0, 0, 10, 15, 20] } ∧
    ∃ i ∈ (find_initial_bfs c1prob).basis_indices,
      ¬ i < c1prob.variables_count := by
  with_unfolding_all decide

/-- C2: the claim says solving scenario 1 yields OPTIMAL with value 9 and
solution [1, 3].  Because find_initial_bfs hands back basis indices [4, 5]
for the 4-column standard form, building the simplex table reads the
objective vector out of bounds, and solve returns ERROR with an
"Algorithm error" message instead of OPTIMAL. -/
theorem c2_solve_returns_error :
    (solve 1000 c2prob).status = SolutionStatus.ERROR ∧
    (solve 1000 c2prob).status ≠ SolutionStatus.OPTIMAL ∧
    (solve 1000 c2prob).error_message =
      some "Algorithm error: index out of bounds" := by
  with_unfolding_all decide

/-- C3: the claim says get_entering_variable picks the column with the
largest positive reduced cost.  On a table whose reduced costs are
[1, 5, 0] the code returns column 0 (np.argmax over the boolean mask
delta > EPSILON gives the FIRST positive index), although the largest
reduced cost 5 sits at column 1. -/
theorem c3_entering_is_first_positive_not_largest :
    (initTable c3prob c3bfs).map
        (fun t => (computeDelta t, get_entering_variable t)) =
      Except.ok ([1, 5, 0], some 0) := by
  with_unfolding_all decide

/-- C4: the claim says a successful pivot leaves the entering column a unit
vector (1 at the pivot row).  Pivoting the scenario-1 table at row 1,
column 0, the code's update formula — applied to every row, the pivot row
included — zeroes the whole pivot row and the whole entering column: the
resulting column 0 is [0, 0], not [0, 1]. -/
theorem c4_pivot_zeroes_entering_column :
    ((initTable c4prob c4bfs).bind (fun t => pivot t 1 0)).map
        (fun t => (t.A, t.b, t.basis, matCol t.A 0)) =
      Except.ok
        ([[0, 1/2, 1, -1/2], [0, 0, 0, 0]], [3/2, 0], [2, 0], [0, 0]) := by
  with_unfolding_all decide

/-- C7: the claim says scenario 2 is reported UNBOUNDED.  The BFS basis
index 3 is out of range for the 3-column standard form, so the table
cannot be built and solve returns ERROR, never reaching the unbounded
detection; the repository's test_unbounded_problem expects UNBOUNDED. -/
theorem c7_unbounded_reported_as_error :
    (solve 1000 c7prob).status = SolutionStatus.ERROR ∧
    (solve 1000 c7prob).status ≠ SolutionStatus.UNBOUNDED ∧
    (solve 1000 c7prob).error_message =
      some "Algorithm error: index out of bounds" := by
  with_unfolding_all decide

/-- C9: the claim says operators carrying whitespace build exactly the same
standard form as trimmed ones.  slack_needed is counted over the UNtrimmed
operator strings, so for the padded operator " <= " no slack column is
reserved and the slack assignment raises IndexError, while the trimmed
statement builds fine — the two runs do not agree. -/
theorem c9_padded_operator_raises :
    build_standard_form c9prob =
      Except.error "list assignment index out of range" ∧
    build_standard_form c9probTrimmed =
      Except.ok
        { optimization_type := OptimizationType.MAXIMIZE,
          objective_coefficients := [1, 0],
          constraints :=
            [ { coefficients := [1, 1], operator := "=", free_val := 1 } ],
          variables_count := 2 } ∧
    (solve 1000 c9prob).status = SolutionStatus.ERROR := by
  with_unfolding_all decide

/-- C6 counterexample: on scenario 1 a pipeline step raises (building the
simplex table fails on the out-of-range basis), yet the returned
error_message is "Algorithm error: index out of bounds" — the exception was
caught inside SimplexAlgorithm.solve_from_bfs, so the message is NOT of the
"Solver error: <message>" form the claim requires for every raising step. -/
theorem c6_counterexample :
    ((build_standard_form c2prob).bind
        (fun sf => initTable sf (find_initial_bfs sf))).isOk = false ∧
    (solve 1000 c2prob).error_message =
      some "Algorithm error: index out of bounds" ∧
    ((solve 1000 c2prob).error_message.getD "").startsWith
      "Solver error:" = false := by
  with_unfolding_all decide

/-- Every successful stdOne output has operator "=" and non-negative free
value. -/
theorem stdOne_ok_fields (sn sc : Nat) (c : ConstraintData)
    (r : ConstraintData × Nat) (h : stdOne sn sc c = Except.ok r) :
    r.1.operator = "=" ∧ 0 ≤ r.1.free_val := by
  simp only [stdOne] at h
  repeat' split at h
  all_goals
    first
    | (simp only [Except.ok.injEq] at h
       subst h
       refine ⟨rfl, ?_⟩
       dsimp only
       linarith)
    | simp_all

/-- Every constraint produced by a successful stdFold has operator "=" and
non-negative free value. -/
theorem stdFold_ok_mem (sn : Nat) (cs : List ConstraintData) :
    ∀ sc cs', stdFold sn sc cs = Except.ok cs' →
      ∀ c ∈ cs', c.operator = "=" ∧ 0 ≤ c.free_val := by
  induction cs with
  | nil =>
    intro sc cs' h c hc
    simp only [stdFold, Except.ok.injEq] at h
    subst h
    simp at hc
  | cons a as ih =>
    intro sc cs' h c hc
    simp only [stdFold] at h
    split at h
    · simp at h
    · split at h
      · simp at h
      · simp only [Except.ok.injEq] at h
        subst h
        rcases List.mem_cons.mp hc with hc | hc
        · subst hc
          exact stdOne_ok_fields sn sc a _ (by assumption)
        · exact ih _ _ (by assumption) c hc

/-- C5: for every non-empty statement whose variables_count equals the
length of its objective, a successfully built standard form is a
maximization, every constraint is an equality with non-negative right-hand
side, and the output variable count is the input count plus the number of
input constraints with operator <= or >=. -/
theorem c5_standard_form_invariants (st out : LPProblem)
    (hv : st.variables_count = st.objective_coefficients.length)
    (hobj : st.objective_coefficients ≠ []) (hcons : st.constraints ≠ [])
    (h : build_standard_form st = Except.ok out) :
    out.optimization_type = OptimizationType.MAXIMIZE ∧
    (∀ c ∈ out.constraints, c.operator = "=") ∧
    (∀ c ∈ out.constraints, 0 ≤ c.free_val) ∧
    out.variables_count =
      st.variables_count + slack_needed_count st.constraints := by
  simp only [build_standard_form] at h
  split at h
  · simp at h
  · simp only [Except.ok.injEq] at h
    subst h
    refine ⟨rfl, ?_, ?_, ?_⟩
    · intro c hc
      exact (stdFold_ok_mem _ _ _ _ (by assumption) c hc).1
    · intro c hc
      exact (stdFold_ok_mem _ _ _ _ (by assumption) c hc).2
    · have hlen :
          (if st.optimization_type = OptimizationType.MINIMIZE then
              st.objective_coefficients.map (fun a => -a)
            else st.objective_coefficients).length =
            st.objective_coefficients.length := by
        split <;> simp
      simp only [hlen, hv]

/-- C5 witness: the invariants instantiated at scenario 1 and the standard
form the builder computes for it. -/
theorem c5_standard_form_invariants_witness :
    c2std.optimization_type = OptimizationType.MAXIMIZE ∧
    (∀ c ∈ c2std.constraints, c.operator = "=") ∧
    (∀ c ∈ c2std.constraints, 0 ≤ c.free_val) ∧
    c2std.variables_count =
      c2prob.variables_count + slack_needed_count c2prob.constraints :=
  c5_standard_form_invariants c2prob c2std (by with_unfolding_all decide)
    (by with_unfolding_all decide) (by with_unfolding_all decide)
    (by with_unfolding_all decide)

/-- C6 (amended): solve is a total function of its input, and any exception
that escapes to LPSolver.solve itself — an error of the body, e.g. the
IndexError raised inside _build_standard_form — is reported as ERROR with
message "Solver error: <message>".  (Exceptions inside
SimplexAlgorithm.solve_from_bfs are caught there and reported as
"Algorithm error: <message>" instead, which is what the counterexample
exhibits.) -/
theorem c6_solver_error_wrapping (maxIter : Nat) (st : LPProblem)
    (e : String) (h : solveBody maxIter st = Except.error e) :
    solve maxIter st =
      { status := SolutionStatus.ERROR,
        error_message := some ("Solver error: " ++ e) } := by
  unfold solve
  rw [h]

/-- C6 witness: the whitespace-operator statement makes the body raise, and
solve wraps it as a Solver error. -/
theorem c6_solver_error_wrapping_witness :
    solve 1000 c9prob =
      { status := SolutionStatus.ERROR,
        error_message :=
          some ("Solver error: " ++ "list assignment index out of range") } :=
  c6_solver_error_wrapping 1000 c9prob "list assignment index out of range"
    (by with_unfolding_all decide)

/-- The only error cGet produces is the out-of-bounds message. -/
theorem cGet_error (c : List ℚ) (bi : Nat) (e : String)
    (h : cGet c bi = Except.error e) : e = "index out of bounds" := by
  unfold cGet at h
  split at h
  · simp at h
  · simp only [Except.error.injEq] at h
    exact h.symm

/-- The only error basisRows produces is the out-of-bounds message. -/
theorem basisRows_error (c : List ℚ) (A : List (List ℚ)) (b : List ℚ) :
    ∀ l i e, basisRows c A b l i = Except.error e →
      e = "index out of bounds" := by
  intro l
  induction l with
  | nil =>
    intro i e h
    simp [basisRows] at h
  | cons bi rest ih =>
    intro i e h
    simp only [basisRows] at h
    split at h
    · simp only [Except.error.injEq] at h
      subst h
      exact cGet_error c bi _ (by assumption)
    · split at h
      · simp only [Except.error.injEq] at h
        subst h
        exact ih (i + 1) _ (by assumption)
      · simp at h

/-- The only error buildTableRows produces is the out-of-bounds message. -/
theorem buildTableRows_error (c : List ℚ) (A : List (List ℚ)) (b : List ℚ)
    (basis : List Nat) (e : String)
    (h : buildTableRows c A b basis = Except.error e) :
    e = "index out of bounds" := by
  simp only [buildTableRows] at h
  split at h
  · simp only [Except.error.injEq] at h
    subst h
    exact basisRows_error c A b basis 0 _ (by assumption)
  · simp at h

/-- The only error initTable produces is the out-of-bounds message. -/
theorem initTable_error (p : LPProblem) (bfs : BFSolution) (e : String)
    (h : initTable p bfs = Except.error e) : e = "index out of bounds" := by
  simp only [initTable] at h
  split at h
  · simp only [Except.error.injEq] at h
    subst h
    exact buildTableRows_error _ _ _ _ _ (by assumption)
  · simp at h

set_option maxHeartbeats 1000000 in
/-- The simplex loop never lets the counter pass maxIter, and whenever its
result carries the max-iterations message the result is an ERROR with the
current table attached. -/
theorem simplexLoop_spec :
    ∀ n maxIter k t, maxIter - k ≤ n → k ≤ maxIter →
      (simplexLoop maxIter k t).2 ≤ maxIter ∧
      ((simplexLoop maxIter k t).1.error_message =
          some "Max iterations exceeded" →
        (simplexLoop maxIter k t).1.status = SolutionStatus.ERROR ∧
        (simplexLoop maxIter k t).1.table.isSome = true) := by
  intro n
  induction n with
  | zero =>
    intro maxIter k t hn hk
    have hke : maxIter ≤ k := by omega
    rw [simplexLoop]
    by_cases hopt : is_optimal t
    · simp [hopt, optimalResult, hk]
    · simp [hopt, hke, errorResultT, hk]
  | succ n ih =>
    intro maxIter k t hn hk
    rw [simplexLoop]
    by_cases hopt : is_optimal t
    · simp [hopt, optimalResult, hk]
    · by_cases hcap : maxIter ≤ k
      · simp [hopt, hcap, errorResultT, hk]
      · cases hent : get_entering_variable t with
        | none => simp [hopt, hcap, hent, optimalResult, hk]
        | some ec =>
          cases hlv : get_leaving_variable t ec with
          | none =>
            refine ⟨?_, ?_⟩
            · simp [hopt, hcap, hent, hlv, unboundedResult, hk]
            · simp only [hopt, hcap, hent, hlv]
              simp only [Bool.false_eq_true, if_false, if_neg hcap,
                unboundedResult]
              intro hmsg
              exact absurd hmsg (by decide)
          | some lr =>
            cases hpv : pivot t lr ec with
            | error e =>
              simp [hopt, hcap, hent, hlv, hpv, errorResultT, hk]
            | ok t' =>
              simp only [hopt, hcap, hent, hlv, hpv, Bool.false_eq_true,
                if_false, if_neg hcap]
              exact ih maxIter (k + 1) t' (by omega) (by omega)

/-- C8: starting from counter k <= maxIter the loop performs at most
maxIter iterations in total (so solve_from_bfs, which starts at 0,
performs at most maxIter pivots) and terminates (simplexLoop is a total
function); whenever the max-iterations message is reported — by the loop
or by solve_from_bfs — the status is ERROR and the table built so far is
attached. -/
theorem c8_iteration_cap :
    (∀ maxIter k t, k ≤ maxIter →
      (simplexLoop maxIter k t).2 ≤ maxIter ∧
      ((simplexLoop maxIter k t).1.error_message =
          some "Max iterations exceeded" →
        (simplexLoop maxIter k t).1.status = SolutionStatus.ERROR ∧
        (simplexLoop maxIter k t).1.table.isSome = true)) ∧
    (∀ maxIter sf bfs,
      (solve_from_bfs maxIter sf bfs).error_message =
          some "Max iterations exceeded" →
      (solve_from_bfs maxIter sf bfs).status = SolutionStatus.ERROR ∧
      (solve_from_bfs maxIter sf bfs).table.isSome = true) := by
  constructor
  · intro maxIter k t hk
    exact simplexLoop_spec (maxIter - k) maxIter k t le_rfl hk
  · intro maxIter sf bfs
    unfold solve_from_bfs
    cases hinit : initTable sf bfs with
    | error e =>
      have he := initTable_error sf bfs e hinit
      subst he
      intro hmsg
      simp only [errorResultT, Option.some.injEq] at hmsg
      exact absurd hmsg (by decide)
    | ok t =>
      exact (simplexLoop_spec maxIter maxIter 0 t (by omega) (by omega)).2

/-- C8 witness: the cap statement instantiated at a concrete loop start and
a concrete solve_from_bfs run. -/
theorem c8_iteration_cap_witness :
    (simplexLoop 5 0 wTable).2 ≤ 5 ∧
    ((solve_from_bfs 5 c3prob c3bfs).error_message =
        some "Max iterations exceeded" →
      (solve_from_bfs 5 c3prob c3bfs).status = SolutionStatus.ERROR ∧
      (solve_from_bfs 5 c3prob c3bfs).table.isSome = true) :=
  ⟨(c8_iteration_cap.1 5 0 wTable (by decide)).1,
   c8_iteration_cap.2 5 c3prob c3bfs⟩

/-- C10: the history holds exactly the initial snapshot at construction;
every successful pivot appends exactly one snapshot, leaving the earlier
entries untouched and in order; get_full_history returns the history as
stored, oldest first. -/
theorem c10_history_append_only :
    (∀ p bfs t, initTable p bfs = Except.ok t →
      t.iterations = [{ headers := t.headers, data := t.tableRows }]) ∧
    (∀ t lr ec t', pivot t lr ec = Except.ok t' →
      t'.iterations =
        t.iterations ++ [{ headers := t'.headers, data := t'.tableRows }]) ∧
    (∀ t, get_full_history t = t.iterations) := by
  refine ⟨?_, ?_, fun t => rfl⟩
  · intro p bfs t h
    simp only [initTable] at h
    split at h
    · simp at h
    · simp only [Except.ok.injEq] at h
      subst h
      rfl
  · intro t lr ec t' h
    simp only [pivot] at h
    split at h
    · simp at h
    · split at h
      · simp at h
      · simp only [Except.ok.injEq] at h
        subst h
        rfl

set_option maxRecDepth 8000 in
set_option maxHeartbeats 1000000 in
/-- C10 witness: the history facts at the concrete scenario-1 table and its
first pivot. -/
theorem c10_history_append_only_witness :
    c4table.iterations =
      [{ headers := c4table.headers, data := c4table.tableRows }] ∧
    c4tableP.iterations =
      c4table.iterations ++
        [{ headers := c4tableP.headers, data := c4tableP.tableRows }] :=
  ⟨c10_history_append_only.1 c4prob c4bfs c4table
      (by with_unfolding_all decide),
   c10_history_append_only.2.1 c4table 1 0 c4tableP
      (by with_unfolding_all decide)⟩

end LPSolver
